import Mathlib

/-!
Verification development for the parametric crop-insurance platform.

Shallow embedding of the payout-trigger evaluation core:
* `analyzeWeatherConditions`, `calculateDailyTotals` (weather analysis engine,
  `scripts/deploy-contract.js`, class `WeatherXMService`);
* `calculatePayoutAmount`, `isDuplicatePayout`, `processPayout`
  (`backend/services/PayoutService.js`);
* `validateWeatherData`, `calculateQualityScore`, `normalizeWeatherData`
  (`scripts/deploy-contract.js`);
* `checkPolicyTriggers`, `calculateSeverity`, `verifyWebhookSignature`,
  `handleWeatherAlerts` (webhook service);
* `addClaimRecord` (policy registry).

Numbers are embedded as exact rationals (`ℚ`); JavaScript `Math.floor` becomes
`Rat.floor`; timestamps are integers in milliseconds; `Date.now()` is passed
explicitly as a `now` parameter.  External collaborators (SHA-256, HMAC, the
Algorand settlement) are passed as function/outcome parameters.
-/

/-- Trigger severity, `'mild' | 'moderate' | 'severe'` in the source. -/
inductive Severity where
  | mild
  | moderate
  | severe
deriving DecidableEq

/-- Trigger type, `'drought' | 'excessive_heat' | 'flooding'` in the source. -/
inductive TriggerType where
  | drought
  | excessive_heat
  | flooding
deriving DecidableEq

/-- Aggregate risk level produced by the analysis engine. -/
inductive RiskLevel where
  | low
  | medium
  | high
deriving DecidableEq

/-- A detected weather trigger as pushed by `analyzeWeatherConditions` and
`checkPolicyTriggers`.  The presentation-only `description` string of the
source objects is omitted. -/
structure Trigger where
  type : TriggerType
  severity : Severity
  value : ℚ
  threshold : ℚ
deriving DecidableEq

/-- A normalized weather reading, mirroring the object built by
`normalizeWeatherData` in `deploy-contract.js` (all sensor fields default to 0
there via `|| 0`).  `timestamp` is epoch milliseconds. -/
structure WeatherReading where
  deviceId : String := ""
  timestamp : ℤ := 0
  temperature : ℚ := 0
  humidity : ℚ := 0
  windSpeed : ℚ := 0
  windDirection : ℚ := 0
  windGusts : ℚ := 0
  pressure : ℚ := 0
  precipitation : ℚ := 0
  rainfall : ℚ := 0
  solarRadiation : ℚ := 0
  uvIndex : ℚ := 0
  visibility : ℚ := 0
  cloudCover : ℚ := 0
deriving DecidableEq

/-- The per-crop thresholds handed to `analyzeWeatherConditions`. -/
structure Thresholds where
  minMonthlyRainfall : ℚ
  maxTemperature : ℚ
  maxDailyRainfall : ℚ
deriving DecidableEq

/-- Result of `analyzeWeatherConditions` (the `recommendations` list of the
source, which feeds no decision, is omitted). -/
structure Analysis where
  triggers : List Trigger
  riskLevel : RiskLevel
deriving DecidableEq

/-- `Math.max(...)` over a list; the source only applies it to non-empty
lists (the empty case would give `-Infinity`, unreachable behind the
emptiness guards). -/
def listMax : List ℚ → ℚ
  | [] => 0
  | x :: xs => xs.foldl max x

/-- Day bucket of a timestamp: the source groups by
`new Date(timestamp).toDateString()`; we bucket by floored UTC day, which is
the same partition up to the (fixed) timezone offset. -/
def dayKey (timestamp : ℤ) : ℤ := timestamp.fdiv 86400000

/-- Insert one reading's field value into the running per-day totals,
preserving first-seen day order (JS object key insertion order). -/
def addToDay (acc : List (ℤ × ℚ)) (day : ℤ) (v : ℚ) : List (ℤ × ℚ) :=
  match acc with
  | [] => [(day, v)]
  | (d, t) :: rest =>
      if d = day then (d, t + v) :: rest else (d, t) :: addToDay rest day v

/-- `calculateDailyTotals(weatherData, 'precipitation')`: per-calendar-day
sums of precipitation, in first-seen day order. -/
def calculateDailyTotals (weatherData : List WeatherReading) : List ℚ :=
  (weatherData.foldl (fun acc r => addToDay acc (dayKey r.timestamp) r.precipitation) []).map
    Prod.snd

/-- The risk-level determination at the end of `analyzeWeatherConditions`
(`severeTriggers` / `moderateTriggers` filters followed by the two-step
classification), extracted verbatim as a helper on the trigger list. -/
def overallRiskLevel (triggers : List Trigger) : RiskLevel :=
  let severeTriggers := triggers.filter (fun t => t.severity = .severe)
  let moderateTriggers := triggers.filter (fun t => t.severity = .moderate)
  if severeTriggers.length > 0 then .high
  else if moderateTriggers.length > 1 then .medium
  else .low

/-- `analyzeWeatherConditions` from `deploy-contract.js` (lines 777-848).
The source's `.filter(t => t !== null)` guards are identity here because the
normalized readings carry total numeric fields, so the `temperatures.length
=== 0 || rainfalls.length === 0` early return collapses onto the emptiness
guard on `weatherData`. -/
def analyzeWeatherConditions (weatherData : List WeatherReading)
    (thresholds : Thresholds) : Analysis :=
  if weatherData.isEmpty then { triggers := [], riskLevel := .low }
  else
    let temperatures := weatherData.map (·.temperature)
    let rainfalls := weatherData.map (·.precipitation)
    if temperatures.isEmpty ∨ rainfalls.isEmpty then { triggers := [], riskLevel := .low }
    else
      let maxTemp := listMax temperatures
      let totalRainfall := rainfalls.sum
      let droughtTriggers : List Trigger :=
        if totalRainfall < thresholds.minMonthlyRainfall then
          [{ type := .drought,
             severity :=
               if totalRainfall < thresholds.minMonthlyRainfall * (1/2) then .severe
               else .moderate,
             value := totalRainfall, threshold := thresholds.minMonthlyRainfall }]
        else []
      let heatTriggers : List Trigger :=
        if maxTemp > thresholds.maxTemperature then
          [{ type := .excessive_heat,
             severity :=
               if maxTemp > thresholds.maxTemperature + 5 then .severe else .moderate,
             value := maxTemp, threshold := thresholds.maxTemperature }]
        else []
      let maxDailyRainfall := listMax (calculateDailyTotals weatherData)
      let floodTriggers : List Trigger :=
        if maxDailyRainfall > thresholds.maxDailyRainfall then
          [{ type := .flooding,
             severity :=
               if maxDailyRainfall > thresholds.maxDailyRainfall * (3/2) then .severe
               else .moderate,
             value := maxDailyRainfall, threshold := thresholds.maxDailyRainfall }]
        else []
      let triggers := droughtTriggers ++ heatTriggers ++ floodTriggers
      { triggers := triggers, riskLevel := overallRiskLevel triggers }

/-- Crop-type reference data (`PolicyService.cropTypes` entries). -/
structure CropType where
  minRainfall : ℚ := 0
  maxTemperature : ℚ := 0
  maxDailyRainfall : ℚ := 0
  premiumRate : ℚ := 0
deriving DecidableEq

/-- A claim record appended by the registry's `addClaimRecord` (the spread
`...claimData` carries `status` and `payoutAmount`); `id` models the unique
generated claim id as a counter. -/
structure ClaimRecord where
  id : ℕ
  policyId : String
  claimDate : ℤ
  status : String
  payoutAmount : ℚ
deriving DecidableEq

/-- An insurance policy, restricted to the fields the payout flow and the
registry mutation read: `id`, `farmerId`, `coverageAmount`, `cropType`,
`claimHistory`. -/
structure Policy where
  id : String
  farmerId : String
  coverageAmount : ℚ
  cropType : CropType := {}
  claimHistory : List ClaimRecord := []
deriving DecidableEq

/-- Severity multiplier switch in `calculatePayoutAmount`: the `default`
branch of the source `switch` gives every severity other than `severe` and
`moderate` (i.e. `mild`) the 0.5 factor. -/
def severityMultiplier : Severity → ℚ
  | .severe => 2
  | .moderate => 1
  | .mild => 1/2

/-- Trigger-type multiplier switch in `calculatePayoutAmount`. -/
def typeMultiplier : TriggerType → ℚ
  | .drought => 3/2
  | .flooding => 13/10
  | .excessive_heat => 6/5

/-- `calculatePayoutAmount` from `PayoutService.js` (lines 137-171):
`Math.floor(min(coverage*0.1*sevMult*typeMult, coverage*0.5))`. -/
def calculatePayoutAmount (policy : Policy) (trigger : Trigger) : ℤ :=
  let basePayout := policy.coverageAmount * (1/10)
  let multiplier := severityMultiplier trigger.severity * typeMultiplier trigger.type
  Rat.floor (min (basePayout * multiplier) (policy.coverageAmount * (1/2)))

/-- Status of a payout record: `'completed' | 'failed'`. -/
inductive PayoutStatus where
  | completed
  | failed
deriving DecidableEq

/-- A payout record stored in `PayoutService.payoutHistory`.  `id` models the
unique generated `PAY_...` id as a counter; the completed record carries
`weatherDataHash` and `transactionId`, the failed record carries `error`
(matching the two object literals in `processPayout`). -/
structure PayoutRecord where
  id : ℕ
  policyId : String
  triggerType : TriggerType
  payoutAmount : ℤ
  weatherDataHash : Option String
  transactionId : Option String
  error : Option String
  timestamp : ℤ
  status : PayoutStatus
deriving DecidableEq

/-- A settlement request submitted to the Algorand collaborator:
`(policyHolderAddress, payoutAmount in microAlgos)`. -/
structure SettleRequest where
  policyHolderAddress : String
  microAlgos : ℤ
deriving DecidableEq

/-- The `PayoutService` instance state: `payoutHistory` (the id-keyed `Map`
as a newest-first list of records with counter-fresh ids) plus a ghost log of
the settlement requests handed to `algorandService.processPayout`. -/
structure PayoutState where
  payoutHistory : List PayoutRecord := []
  nextId : ℕ := 0
  settlements : List SettleRequest := []
deriving DecidableEq

/-- `isDuplicatePayout` from `PayoutService.js` (lines 176-186): a completed
record for the same `(policyId, triggerType)` with `now - timestamp` under
24 hours (86,400,000 ms). -/
def isDuplicatePayout (history : List PayoutRecord) (policyId : String)
    (triggerType : TriggerType) (now : ℤ) : Bool :=
  let recentPayouts := history.filter fun payout =>
    payout.policyId = policyId ∧ payout.triggerType = triggerType ∧
      payout.status = .completed ∧ now - payout.timestamp < 86400000
  recentPayouts.length > 0

/-- `createWeatherDataHash`: SHA-256 (passed in as `sha`) of the
`"timestamp-temperature-rainfall"` tuples joined by `|`. -/
def createWeatherDataHash (sha : String → String) (weatherData : List WeatherReading) :
    String :=
  sha (String.intercalate "|"
    (weatherData.map fun d =>
      let ts := d.timestamp
      let temp := d.temperature
      let rain := d.rainfall
      s!"{ts}-{temp}-{rain}"))

/-- `processPayout` from `PayoutService.js` (lines 70-132) as a state
transition.  The settlement outcome of the external
`algorandService.processPayout` call is a parameter (`Except` error message
or transaction id); a thrown settlement error is the only exception the
`try/catch` can see, and it is re-raised after the failed record is stored.
Returns the new state and `Except.ok (some record)` / `.ok none` (the `null`
returns) / `.error msg` (the re-raised error). -/
def processPayout (sha : String → String) (st : PayoutState) (now : ℤ)
    (policy : Policy) (trigger : Trigger) (weatherData : List WeatherReading)
    (settleOutcome : Except String String) :
    PayoutState × Except String (Option PayoutRecord) :=
  let payoutAmount := calculatePayoutAmount policy trigger
  if payoutAmount ≤ 0 then (st, .ok none)
  else if isDuplicatePayout st.payoutHistory policy.id trigger.type now then (st, .ok none)
  else
    let weatherDataHash := createWeatherDataHash sha weatherData
    let stSettle :=
      { st with settlements :=
          { policyHolderAddress := policy.farmerId,
            microAlgos := payoutAmount * 1000000 } :: st.settlements }
    match settleOutcome with
    | .ok transactionId =>
        let payoutRecord : PayoutRecord :=
          { id := st.nextId, policyId := policy.id, triggerType := trigger.type,
            payoutAmount := payoutAmount, weatherDataHash := some weatherDataHash,
            transactionId := some transactionId, error := none, timestamp := now,
            status := .completed }
        ({ stSettle with payoutHistory := payoutRecord :: st.payoutHistory,
                         nextId := st.nextId + 1 },
         .ok (some payoutRecord))
    | .error msg =>
        let failedRecord : PayoutRecord :=
          { id := st.nextId, policyId := policy.id, triggerType := trigger.type,
            payoutAmount := 0, weatherDataHash := none, transactionId := none,
            error := some msg, timestamp := now, status := .failed }
        ({ stSettle with payoutHistory := failedRecord :: st.payoutHistory,
                         nextId := st.nextId + 1 },
         .error msg)

/-- Number of completed payout records for a `(policyId, triggerType)` pair
(the measure used to state the idempotency claims). -/
def completedCount (history : List PayoutRecord) (policyId : String)
    (triggerType : TriggerType) : ℕ :=
  (history.filter fun p =>
    p.policyId = policyId ∧ p.triggerType = triggerType ∧ p.status = .completed).length

/-- A farmer aggregate held in `PolicyService.farmers`. -/
structure Farmer where
  id : String
  policies : List String := []
  totalCoverage : ℚ := 0
  totalClaims : ℚ := 0
deriving DecidableEq

/-- The policy registry state (`PolicyService.policies` / `.farmers` maps as
lists keyed by the `id` fields; `nextClaimId` models the generated `CLM_...`
ids). -/
structure RegistryState where
  policies : List Policy := []
  farmers : List Farmer := []
  nextClaimId : ℕ := 0
deriving DecidableEq

/-- `addClaimRecord` from the policy registry: throws (`Except.error`) when
the policy is missing; otherwise appends the claim to the policy's
`claimHistory` and bumps the owning farmer's `totalClaims` by the claim's
`payoutAmount` exactly when the farmer exists and `claim.status === 'paid'`.
The claim-data spread contributes `status` and `payoutAmount`. -/
def addClaimRecord (st : RegistryState) (now : ℤ) (policyId : String)
    (claimStatus : String) (claimPayoutAmount : ℚ) :
    Except String (RegistryState × ClaimRecord) :=
  match st.policies.find? (fun p => p.id = policyId) with
  | none => .error s!"Policy not found: {policyId}"
  | some policy =>
      let claim : ClaimRecord :=
        { id := st.nextClaimId, policyId := policyId, claimDate := now,
          status := claimStatus, payoutAmount := claimPayoutAmount }
      let policies := st.policies.map fun p =>
        if p.id = policyId then { p with claimHistory := p.claimHistory ++ [claim] } else p
      let farmers := st.farmers.map fun f =>
        if f.id = policy.farmerId ∧ claimStatus = "paid" then
          { f with totalClaims := f.totalClaims + claimPayoutAmount }
        else f
      .ok ({ st with policies := policies, farmers := farmers,
                     nextClaimId := st.nextClaimId + 1 }, claim)

/-- Combined system state: the payout service's state next to the policy
registry.  `PayoutService` holds no reference to `PolicyService`; nothing in
the payout flow calls `addClaimRecord`, so lifting `processPayout` to the
combined state leaves the registry component untouched (this is the observed
call graph of the source, not a simplification). -/
structure SystemState where
  payout : PayoutState := {}
  registry : RegistryState := {}
deriving DecidableEq

/-- `processPayout` acting on the combined state. -/
def systemProcessPayout (sha : String → String) (st : SystemState) (now : ℤ)
    (policy : Policy) (trigger : Trigger) (weatherData : List WeatherReading)
    (settleOutcome : Except String String) :
    SystemState × Except String (Option PayoutRecord) :=
  let r := processPayout sha st.payout now policy trigger weatherData settleOutcome
  ({ st with payout := r.1 }, r.2)

/-- `calculateSeverity` from the webhook service: classification by the
`value/threshold` quotient (ratio > 2 → severe, ratio > 1.5 → moderate, else
mild). -/
def calculateSeverity (value threshold : ℚ) : Severity :=
  let q := value / threshold
  if q > 2 then .severe
  else if q > 3/2 then .moderate
  else .mild

/-- The `data` object of a webhook alert payload; `none` models an absent
field (both `undefined` and `0` are falsy in the source's `if` guards). -/
structure AlertData where
  temperature : Option ℚ := none
  precipitation : Option ℚ := none
deriving DecidableEq

/-- A webhook weather-alert event (`type`, `device_id`, `data`). -/
structure Alert where
  type : String
  device_id : String := ""
  data : AlertData := {}
deriving DecidableEq

/-- JavaScript truthiness of a numeric field: present and non-zero. -/
def truthy : Option ℚ → Bool
  | none => false
  | some v => v ≠ 0

/-- `checkPolicyTriggers` from the webhook service: temperature and
precipitation checks against the policy's crop-type thresholds, each guarded
by field truthiness. -/
def checkPolicyTriggers (policy : Policy) (alert : Alert) : List Trigger :=
  let temperatureTriggers : List Trigger :=
    if truthy alert.data.temperature then
      let v := alert.data.temperature.getD 0
      if v > policy.cropType.maxTemperature then
        [{ type := .excessive_heat,
           severity := calculateSeverity v policy.cropType.maxTemperature,
           value := v, threshold := policy.cropType.maxTemperature }]
      else []
    else []
  let precipitationTriggers : List Trigger :=
    if truthy alert.data.precipitation then
      let v := alert.data.precipitation.getD 0
      if v > policy.cropType.maxDailyRainfall then
        [{ type := .flooding,
           severity := calculateSeverity v policy.cropType.maxDailyRainfall,
           value := v, threshold := policy.cropType.maxDailyRainfall }]
      else []
    else []
  temperatureTriggers ++ precipitationTriggers

/-- `crypto.timingSafeEqual` on byte buffers: throws a `RangeError`
(`Except.error`) when the lengths differ, otherwise compares. -/
def timingSafeEqual (a b : List ℕ) : Except Unit Bool :=
  if a.length ≠ b.length then .error () else .ok (a = b)

/-- `verifyWebhookSignature`: compare the (hex-decoded) signature header
bytes against the HMAC-SHA256 digest of the payload under the shared secret.
The HMAC primitive is a parameter; signatures are modelled as the byte lists
their hex headers decode to. -/
def verifyWebhookSignature (hmac : String → String → List ℕ) (secret payload : String)
    (signature : List ℕ) : Except Unit Bool :=
  timingSafeEqual signature (hmac secret payload)

/-- The post-verification `switch (alert.type)` of `handleWeatherAlerts`:
`severe_weather` resolves affected policies via `findAffectedPolicies`, which
returns `[]`, so its loop body never runs; the three other recognized alert
types call methods (`processTemperatureAlert`, `processPrecipitationAlert`,
`processWindAlert`) that are not defined on the class, so the call throws;
unrecognized types fall through. -/
def processAlertType (st : SystemState) (alert : Alert) : Except String SystemState :=
  if alert.type = "severe_weather" then .ok st
  else if alert.type = "temperature_extreme" then
    .error "this.processTemperatureAlert is not a function"
  else if alert.type = "precipitation_extreme" then
    .error "this.processPrecipitationAlert is not a function"
  else if alert.type = "wind_extreme" then
    .error "this.processWindAlert is not a function"
  else .ok st

/-- `handleWeatherAlerts` from the webhook service: verify the signature of
the serialized payload, answer 401 on a failed comparison, then process the
alert; any exception (including the length-mismatch throw inside
`timingSafeEqual`) is caught by the surrounding `try` and answered with 500.
Returns the HTTP status and the resulting system state. -/
def handleWeatherAlerts (hmac : String → String → List ℕ) (secret : String)
    (st : SystemState) (alert : Alert) (payload : String) (signature : List ℕ) :
    ℕ × SystemState :=
  match verifyWebhookSignature hmac secret payload signature with
  | .error _ => (500, st)
  | .ok false => (401, st)
  | .ok true =>
      match processAlertType st alert with
      | .error _ => (500, st)
      | .ok st' => (200, st')

/-- The `validationRules` table of `validateWeatherData` in
`deploy-contract.js`: `(field key, min, max)`.  Note the keys are the
provider's snake_case names. -/
def validationRules : List (String × ℚ × ℚ) :=
  [("temperature", -50, 60), ("humidity", 0, 100), ("wind_speed", 0, 200),
   ("wind_direction", 0, 360), ("pressure", 800, 1100), ("precipitation", 0, 1000)]

/-- Dynamic property lookup `data[field]` on a normalized reading.  The
object built by `normalizeWeatherData` has camelCase keys (`windSpeed`,
`windDirection`), so the rules' `wind_speed` / `wind_direction` lookups hit
no property and return `undefined` (`none`). -/
def lookupNormalizedField (data : WeatherReading) : String → Option ℚ
  | "temperature" => some data.temperature
  | "humidity" => some data.humidity
  | "pressure" => some data.pressure
  | "precipitation" => some data.precipitation
  | _ => none

/-- `calculateQualityScore` from `deploy-contract.js` (lines 1060-1074):
100, minus 20 per validation error, minus 5 per warning, minus 10 when the
(truthy) timestamp is more than one hour old, clamped to `[0, 100]`. -/
def calculateQualityScore (now : ℤ) (timestamp : ℤ) (errors warnings : List String) :
    ℤ :=
  let score : ℤ := 100 - errors.length * 20 - warnings.length * 5
  let score := if timestamp ≠ 0 ∧ now - timestamp > 3600000 then score - 10 else score
  max 0 (min 100 score)

/-- Result object of `validateWeatherData`. -/
structure Validation where
  isValid : Bool
  errors : List String
  warnings : List String
  qualityScore : ℤ
deriving DecidableEq

/-- `validateWeatherData` from `deploy-contract.js` (lines 853-880) applied
to a normalized reading: range errors for every rule whose key is present on
the object; this variant of the validator produces no warnings. -/
def validateWeatherData (now : ℤ) (data : WeatherReading) : Validation :=
  let errors := validationRules.filterMap fun r =>
    let field := r.1
    match lookupNormalizedField data field with
    | none => none
    | some v =>
        if v < r.2.1 ∨ v > r.2.2 then
          some s!"{field} value {v} outside valid range"
        else none
  let warnings : List String := []
  { isValid := errors.length = 0, errors := errors, warnings := warnings,
    qualityScore := calculateQualityScore now data.timestamp errors warnings }

/-- A raw provider observation: every numeric field is optional (the
normalizer defaults an absent field to 0); the timestamp is mandatory. -/
structure RawWeatherData where
  timestamp : ℤ
  temperature : Option ℚ := none
  humidity : Option ℚ := none
  wind_speed : Option ℚ := none
  wind_direction : Option ℚ := none
  wind_gusts : Option ℚ := none
  pressure : Option ℚ := none
  precipitation : Option ℚ := none
  solar_radiation : Option ℚ := none
  uv_index : Option ℚ := none
  visibility : Option ℚ := none
  cloud_cover : Option ℚ := none
deriving DecidableEq

/-- `normalizeWeatherData` from `deploy-contract.js` (lines 885-914): map the
provider fields into a reading (absent numerics default to 0, `rainfall`
aliases `precipitation`), then validate and attach the quality metrics.
Returns the normalized reading together with its validation object. -/
def normalizeWeatherData (now : ℤ) (rawData : RawWeatherData) (deviceId : String) :
    WeatherReading × Validation :=
  let normalized : WeatherReading :=
    { deviceId := deviceId, timestamp := rawData.timestamp,
      temperature := rawData.temperature.getD 0,
      humidity := rawData.humidity.getD 0,
      windSpeed := rawData.wind_speed.getD 0,
      windDirection := rawData.wind_direction.getD 0,
      windGusts := rawData.wind_gusts.getD 0,
      pressure := rawData.pressure.getD 0,
      precipitation := rawData.precipitation.getD 0,
      rainfall := rawData.precipitation.getD 0,
      solarRadiation := rawData.solar_radiation.getD 0,
      uvIndex := rawData.uv_index.getD 0,
      visibility := rawData.visibility.getD 0,
      cloudCover := rawData.cloud_cover.getD 0 }
  (normalized, validateWeatherData now normalized)

/-! ### Helper lemmas -/

theorem rat_floor_le (q : ℚ) : (Rat.floor q : ℚ) ≤ q :=
  Rat.le_floor.mp le_rfl

/-- With no completed record for the pair at all, the 24-hour duplicate
check cannot fire. -/
theorem isDuplicatePayout_of_completedCount_zero (history : List PayoutRecord)
    (pid : String) (tt : TriggerType) (now : ℤ)
    (h : completedCount history pid tt = 0) :
    isDuplicatePayout history pid tt now = false := by
  unfold completedCount at h
  rw [List.length_eq_zero, List.filter_eq_nil_iff] at h
  unfold isDuplicatePayout
  rw [decide_eq_false_iff_not, not_lt, Nat.le_zero, List.length_eq_zero,
    List.filter_eq_nil_iff]
  intro a ha
  have := h a ha
  simp only [decide_eq_true_eq] at this ⊢
  tauto

theorem rat_floor_mono {a b : ℚ} (h : a ≤ b) : Rat.floor a ≤ Rat.floor b :=
  Rat.le_floor.mpr ((rat_floor_le a).trans h)

theorem typeMultiplier_pos (ty : TriggerType) : 0 < typeMultiplier ty := by
  cases ty <;> norm_num [typeMultiplier]

theorem severityMultiplier_mild_le_moderate :
    severityMultiplier .mild ≤ severityMultiplier .moderate := by
  norm_num [severityMultiplier]

theorem severityMultiplier_moderate_le_severe :
    severityMultiplier .moderate ≤ severityMultiplier .severe := by
  norm_num [severityMultiplier]

/-- Payout amount is monotone in the severity multiplier (for non-negative
coverage). -/
theorem calculatePayoutAmount_mono (policy : Policy) (hc : 0 ≤ policy.coverageAmount)
    (ty : TriggerType) (v thr : ℚ) {s₁ s₂ : Severity}
    (hs : severityMultiplier s₁ ≤ severityMultiplier s₂) :
    calculatePayoutAmount policy ⟨ty, s₁, v, thr⟩ ≤
      calculatePayoutAmount policy ⟨ty, s₂, v, thr⟩ := by
  unfold calculatePayoutAmount
  apply rat_floor_mono
  apply min_le_min _ le_rfl
  have h0 : (0:ℚ) ≤ policy.coverageAmount * (1/10) := by positivity
  exact mul_le_mul_of_nonneg_left
    (mul_le_mul_of_nonneg_right hs (typeMultiplier_pos ty).le) h0

/-! ### Claims -/

/-- C2: `calculatePayoutAmount` returns
`floor(min(c × 0.10 × severityMult × typeMult, c × 0.5))` with severity
multipliers 2.0/1.0/0.5 (severe/moderate/mild) and type multipliers
1.5/1.3/1.2 (drought/flooding/excessive_heat); for coverage 1000, flooding,
severe the result is 260; the result never exceeds 0.5 × coverage; and for a
fixed type and coverage it is monotone non-decreasing in severity. -/
theorem C2_payout_amount_formula (policy : Policy) (hc : 0 ≤ policy.coverageAmount)
    (sev : Severity) (ty : TriggerType) (v thr : ℚ) :
    calculatePayoutAmount policy ⟨ty, sev, v, thr⟩ =
      Rat.floor (min (policy.coverageAmount * (1/10) * severityMultiplier sev *
        typeMultiplier ty) (policy.coverageAmount * (1/2)))
    ∧ ((calculatePayoutAmount policy ⟨ty, sev, v, thr⟩ : ℤ) : ℚ) ≤
        policy.coverageAmount * (1/2)
    ∧ calculatePayoutAmount policy ⟨ty, .mild, v, thr⟩ ≤
        calculatePayoutAmount policy ⟨ty, .moderate, v, thr⟩
    ∧ calculatePayoutAmount policy ⟨ty, .moderate, v, thr⟩ ≤
        calculatePayoutAmount policy ⟨ty, .severe, v, thr⟩
    ∧ calculatePayoutAmount ⟨"", "", 1000, {}, []⟩ ⟨.flooding, .severe, 0, 0⟩ = 260 := by
  refine ⟨?_, ?_, ?_, ?_, ?_⟩
  · unfold calculatePayoutAmount
    ring_nf
  · calc ((calculatePayoutAmount policy ⟨ty, sev, v, thr⟩ : ℤ) : ℚ) ≤
        min (policy.coverageAmount * (1/10) *
          (severityMultiplier sev * typeMultiplier ty)) (policy.coverageAmount * (1/2)) :=
          rat_floor_le _
    _ ≤ policy.coverageAmount * (1/2) := min_le_right _ _
  · exact calculatePayoutAmount_mono policy hc ty v thr severityMultiplier_mild_le_moderate
  · exact calculatePayoutAmount_mono policy hc ty v thr severityMultiplier_moderate_le_severe
  · simp only [calculatePayoutAmount, severityMultiplier, typeMultiplier]
    rw [min_def]
    norm_num
    decide

theorem C2_payout_amount_formula_witness :
    (0:ℚ) ≤ (1000:ℚ) ∧
      calculatePayoutAmount ⟨"", "", 1000, {}, []⟩ ⟨.flooding, .severe, 0, 0⟩ = 260 :=
  ⟨by norm_num,
   (C2_payout_amount_formula ⟨"", "", 1000, {}, []⟩ (by norm_num) .severe .flooding
      0 0).2.2.2.2⟩

/-- C7: the two entry paths disagree on the same input, contradicting the
required code-path convergence: for an observed temperature of 36 against a
35-degree threshold the webhook path's `checkPolicyTriggers` /
`calculateSeverity` (ratio ladder: >2 severe, >1.5 moderate, else mild)
assigns `mild`, while the sweep path's `analyzeWeatherConditions` (additive
ladder: >threshold+5 severe, else moderate) assigns `moderate` to the
excessive-heat trigger. -/
theorem C7_entry_path_severity_divergence :
    checkPolicyTriggers
        { id := "P1", farmerId := "F1", coverageAmount := 1000,
          cropType := { minRainfall := 300, maxTemperature := 35, maxDailyRainfall := 1000 } }
        { type := "temperature_extreme", data := { temperature := some 36 } }
      = [{ type := .excessive_heat, severity := .mild, value := 36, threshold := 35 }]
    ∧ (analyzeWeatherConditions [{ timestamp := 0, temperature := 36 }]
        ⟨0, 35, 1000⟩).triggers
      = [{ type := .excessive_heat, severity := .moderate, value := 36, threshold := 35 }]
    ∧ Severity.mild ≠ Severity.moderate := by
  refine ⟨?_, ?_, by decide⟩
  · simp only [checkPolicyTriggers, calculateSeverity, truthy]
    norm_num
  · norm_num [analyzeWeatherConditions, listMax, calculateDailyTotals, dayKey, addToDay,
      List.foldl]

/-- C8: the quality score at ingest does not deduct for out-of-range wind
fields: `validateWeatherData`'s rules table is keyed `wind_speed` /
`wind_direction` while the normalized reading carries `windSpeed` /
`windDirection`, so a reading with windSpeed 500 (far above the [0,200]
validation range) still gets no error and qualityScore 100 instead of the
claimed 80. -/
theorem C8_quality_score_misses_wind :
    (normalizeWeatherData 7200000
        { timestamp := 7200000, temperature := some 20, humidity := some 50,
          wind_speed := some 500, wind_direction := some 10, pressure := some 1000,
          precipitation := some 5 } "D1").1.windSpeed = 500
    ∧ ¬((500:ℚ) ≤ 200)
    ∧ (normalizeWeatherData 7200000
        { timestamp := 7200000, temperature := some 20, humidity := some 50,
          wind_speed := some 500, wind_direction := some 10, pressure := some 1000,
          precipitation := some 5 } "D1").2.errors = []
    ∧ (normalizeWeatherData 7200000
        { timestamp := 7200000, temperature := some 20, humidity := some 50,
          wind_speed := some 500, wind_direction := some 10, pressure := some 1000,
          precipitation := some 5 } "D1").2.qualityScore = 100 := by
  exact ⟨by norm_num [normalizeWeatherData], by norm_num, by decide, by decide⟩

/-- The risk level of an analysis is the extracted classifier applied to its
triggers (in the empty/degenerate branches both sides are `low`). -/
theorem analyze_riskLevel_eq (wd : List WeatherReading) (th : Thresholds) :
    (analyzeWeatherConditions wd th).riskLevel =
      overallRiskLevel (analyzeWeatherConditions wd th).triggers := by
  cases wd with
  | nil => simp [analyzeWeatherConditions, overallRiskLevel]
  | cons r rs => rfl

/-- The two-branch classifier agrees with the claim's phrasing. -/
theorem overallRiskLevel_eq_spec (T : List Trigger) :
    overallRiskLevel T =
      if ∃ t ∈ T, t.severity = .severe then .high
      else if 2 ≤ (T.filter (fun t => t.severity = .moderate)).length then .medium
      else .low := by
  unfold overallRiskLevel
  by_cases h : ∃ t ∈ T, t.severity = .severe
  · rw [if_pos h, if_pos]
    obtain ⟨t, ht, hs⟩ := h
    have hm : t ∈ T.filter (fun t => t.severity = .severe) :=
      List.mem_filter.mpr ⟨ht, by simp [hs]⟩
    exact List.length_pos.mpr (List.ne_nil_of_mem hm)
  · rw [if_neg h, if_neg]
    · exact if_congr (by omega) rfl rfl
    · intro hpos
      obtain ⟨t, ht⟩ := List.exists_mem_of_length_pos hpos
      have := List.mem_filter.mp ht
      exact h ⟨t, this.1, by simpa using this.2⟩

/-- C4: the risk level returned by `analyzeWeatherConditions` is `high` when
some returned trigger is severe, `medium` when there is no severe trigger
and at least two triggers are moderate, and `low` otherwise; and the empty
reading list yields no triggers and risk level `low`. -/
theorem C4_risk_level (wd : List WeatherReading) (th : Thresholds) :
    ((analyzeWeatherConditions wd th).riskLevel =
      if ∃ t ∈ (analyzeWeatherConditions wd th).triggers, t.severity = .severe then .high
      else if 2 ≤ ((analyzeWeatherConditions wd th).triggers.filter
          (fun t => t.severity = .moderate)).length then .medium
      else .low)
    ∧ (analyzeWeatherConditions [] th).triggers = []
    ∧ (analyzeWeatherConditions [] th).riskLevel = .low := by
  refine ⟨?_, by simp [analyzeWeatherConditions], by simp [analyzeWeatherConditions]⟩
  rw [analyze_riskLevel_eq, overallRiskLevel_eq_spec]

/-- C10: every trigger produced by the analysis engine has severity
`moderate` or `severe` — `mild` is unreachable from the periodic-sweep path
(each severity in `analyzeWeatherConditions` is a two-way
severe/moderate decision), while the webhook path's `checkPolicyTriggers`
does produce `mild` triggers (here: temperature 36 against threshold 35). -/
theorem C10_analysis_never_mild :
    (∀ (wd : List WeatherReading) (th : Thresholds) (t : Trigger),
        t ∈ (analyzeWeatherConditions wd th).triggers →
        t.severity = .moderate ∨ t.severity = .severe)
    ∧ checkPolicyTriggers
        { id := "P1", farmerId := "F1", coverageAmount := 1000,
          cropType := { minRainfall := 300, maxTemperature := 35, maxDailyRainfall := 1000 } }
        { type := "temperature_extreme", data := { temperature := some 36 } }
      = [{ type := .excessive_heat, severity := .mild, value := 36, threshold := 35 }] := by
  constructor
  · intro wd th t ht
    cases wd with
    | nil => simp [analyzeWeatherConditions] at ht
    | cons r rs =>
      simp only [analyzeWeatherConditions, List.isEmpty_cons, List.map_cons,
        Bool.false_eq_true, or_self, if_false, List.mem_append] at ht
      rcases ht with (h | h) | h <;>
        [skip; skip; skip] <;>
        · split at h
          · simp only [List.mem_singleton] at h
            subst h
            dsimp only
            split
            · exact Or.inr rfl
            · exact Or.inl rfl
          · simp at h
  · simp only [checkPolicyTriggers, calculateSeverity, truthy]
    norm_num

theorem C10_analysis_never_mild_witness :
    (({ type := .excessive_heat, severity := .moderate, value := 36, threshold := 35 } :
        Trigger) ∈
      (analyzeWeatherConditions [{ timestamp := 0, temperature := 36 }]
        ⟨0, 35, 1000⟩).triggers)
    ∧ ((Severity.moderate = .moderate) ∨ (Severity.moderate = .severe)) :=
  ⟨by norm_num [analyzeWeatherConditions, listMax, calculateDailyTotals, dayKey, addToDay,
      List.foldl],
   C10_analysis_never_mild.1 [{ timestamp := 0, temperature := 36 }] ⟨0, 35, 1000⟩
     { type := .excessive_heat, severity := .moderate, value := 36, threshold := 35 }
     (by norm_num [analyzeWeatherConditions, listMax, calculateDailyTotals, dayKey, addToDay,
        List.foldl])⟩

/-- C3 counterexample: for the empty reading list the precipitation total
(0) is strictly below a positive `minMonthlyRainfall` threshold, yet
`analyzeWeatherConditions` returns through its degenerate-input guard with
no triggers at all, hence no drought trigger — the claim's "for every list
of readings" fails at `[]`. -/
theorem C3_empty_list_counterexample :
    ((([] : List WeatherReading).map (·.precipitation)).sum < (300:ℚ))
    ∧ (analyzeWeatherConditions [] ⟨300, 35, 50⟩).triggers = [] := by
  exact ⟨by norm_num, by simp [analyzeWeatherConditions]⟩

/-- C3 (amended to non-empty reading lists): for every non-empty list of
readings, `analyzeWeatherConditions` returns a drought trigger exactly when
the precipitation total is strictly below `minMonthlyRainfall`, with
severity `severe` iff the total is strictly below half the threshold and
`moderate` otherwise; when the total reaches the threshold no drought
trigger is returned. -/
theorem C3_drought_trigger (wd : List WeatherReading) (th : Thresholds)
    (hwd : wd ≠ []) :
    (analyzeWeatherConditions wd th).triggers.find? (fun t => t.type = .drought) =
      if (wd.map (·.precipitation)).sum < th.minMonthlyRainfall then
        some { type := .drought,
               severity :=
                 if (wd.map (·.precipitation)).sum < th.minMonthlyRainfall * (1/2) then
                   .severe
                 else .moderate,
               value := (wd.map (·.precipitation)).sum,
               threshold := th.minMonthlyRainfall }
      else none := by
  cases wd with
  | nil => exact absurd rfl hwd
  | cons r rs =>
    simp only [analyzeWeatherConditions, List.isEmpty_cons, List.map_cons,
      Bool.false_eq_true, or_self, if_false]
    by_cases hd :
        (r.precipitation :: rs.map (fun x => x.precipitation)).sum < th.minMonthlyRainfall
    · rw [if_pos hd, if_pos hd]
      simp
    · rw [if_neg hd, if_neg hd, List.nil_append]
      rcases em (listMax (r.temperature :: rs.map (fun x => x.temperature)) >
          th.maxTemperature) with hh | hh <;>
        rcases em (listMax (calculateDailyTotals (r :: rs)) >
            th.maxDailyRainfall) with hf | hf <;>
        simp [hh, hf]

theorem C3_drought_trigger_witness :
    ([({ timestamp := 0, precipitation := 10, rainfall := 10 } : WeatherReading)] ≠
        ([] : List WeatherReading))
    ∧ (analyzeWeatherConditions
          [{ timestamp := 0, precipitation := 10, rainfall := 10 }]
          ⟨300, 35, 50⟩).triggers.find? (fun t => t.type = .drought)
      = some { type := .drought, severity := .severe, value := 10, threshold := 300 } := by
  refine ⟨by simp, ?_⟩
  rw [C3_drought_trigger _ _ (by simp)]
  norm_num

/-- C6 counterexample: an empty signature header (0 bytes after hex
decoding) does not verify against the 32-byte HMAC digest, but the handler
answers 500, not 401: `crypto.timingSafeEqual` throws on the length
mismatch and the surrounding `try/catch` maps the throw to a 500 response.
No state is mutated either way. -/
theorem C6_short_signature_counterexample :
    (([] : List ℕ) ≠ (fun _ _ => List.replicate 32 0 : String → String → List ℕ) "s" "p")
    ∧ handleWeatherAlerts (fun _ _ => List.replicate 32 0) "s" {}
        { type := "severe_weather" } "p" [] = (500, {})
    ∧ (500 : ℕ) ≠ 401 := by
  refine ⟨by simp, ?_, by decide⟩
  simp [handleWeatherAlerts, verifyWebhookSignature, timingSafeEqual]

/-- C6 (amended): a signature that does not match the expected HMAC digest
is rejected with no `PayoutRecord` created and no policy or other state
mutated; the response status is 401 when the signature has the digest's
byte length (the constant-time compare returns false) and 500 when the
lengths differ (the compare throws and the catch-all answers 500). -/
theorem C6_bad_signature_rejected (hmac : String → String → List ℕ)
    (secret payload : String) (st : SystemState) (alert : Alert) (sig : List ℕ)
    (hne : sig ≠ hmac secret payload) :
    handleWeatherAlerts hmac secret st alert payload sig =
      ((if sig.length = (hmac secret payload).length then 401 else 500), st) := by
  unfold handleWeatherAlerts verifyWebhookSignature timingSafeEqual
  by_cases hlen : sig.length = (hmac secret payload).length
  · rw [if_pos hlen, if_neg (by simp [hlen])]
    simp [hne]
  · rw [if_neg hlen, if_pos (by simpa using hlen)]

theorem C6_bad_signature_rejected_witness :
    (([0] : List ℕ) ≠ (fun _ _ => [1] : String → String → List ℕ) "s" "p")
    ∧ handleWeatherAlerts (fun _ _ => [1]) "s" {} { type := "severe_weather" } "p" [0]
      = (401, {}) := by
  refine ⟨by simp, ?_⟩
  rw [C6_bad_signature_rejected (fun _ _ => [1]) "s" "p" {} { type := "severe_weather" }
    [0] (by simp)]
  simp

/-- C1: when a completed payout record for the same `(policyId,
triggerType)` less than 24 hours old exists, `processPayout` skips the
trigger — it returns `null`, submits no settlement and stores no record;
consequently two invocations in immediate succession (from a clean history,
with a positive amount and a successful first settlement) yield exactly one
completed record, the second invocation being a no-op. -/
theorem C1_duplicate_suppression (sha : String → String) :
    (∀ (st : PayoutState) (now : ℤ) (pol : Policy) (tr : Trigger)
        (wd : List WeatherReading) (out : Except String String),
        isDuplicatePayout st.payoutHistory pol.id tr.type now = true →
        processPayout sha st now pol tr wd out = (st, .ok none))
    ∧ (∀ (st : PayoutState) (now₁ now₂ : ℤ) (pol : Policy) (tr : Trigger)
        (wd : List WeatherReading) (tx : String) (out₂ : Except String String),
        completedCount st.payoutHistory pol.id tr.type = 0 →
        0 < calculatePayoutAmount pol tr →
        now₂ - now₁ < 86400000 →
        completedCount (processPayout sha st now₁ pol tr wd (.ok tx)).1.payoutHistory
            pol.id tr.type = 1
        ∧ processPayout sha (processPayout sha st now₁ pol tr wd (.ok tx)).1 now₂ pol tr
            wd out₂ = ((processPayout sha st now₁ pol tr wd (.ok tx)).1, .ok none)) := by
  constructor
  · intro st now pol tr wd out hdup
    unfold processPayout
    by_cases hle : calculatePayoutAmount pol tr ≤ 0
    · rw [if_pos hle]
    · rw [if_neg hle, if_pos hdup]
  · intro st now₁ now₂ pol tr wd tx out₂ hcc hamt hwin
    have hle : ¬(calculatePayoutAmount pol tr ≤ 0) := not_le.mpr hamt
    have hd₁ := isDuplicatePayout_of_completedCount_zero st.payoutHistory pol.id tr.type
      now₁ hcc
    have hrun : processPayout sha st now₁ pol tr wd (.ok tx) =
        ({ payoutHistory :=
             { id := st.nextId, policyId := pol.id, triggerType := tr.type,
               payoutAmount := calculatePayoutAmount pol tr,
               weatherDataHash := some (createWeatherDataHash sha wd),
               transactionId := some tx, error := none, timestamp := now₁,
               status := .completed } :: st.payoutHistory,
           nextId := st.nextId + 1,
           settlements :=
             { policyHolderAddress := pol.farmerId,
               microAlgos := calculatePayoutAmount pol tr * 1000000 } ::
               st.settlements },
         .ok (some
           { id := st.nextId, policyId := pol.id, triggerType := tr.type,
             payoutAmount := calculatePayoutAmount pol tr,
             weatherDataHash := some (createWeatherDataHash sha wd),
             transactionId := some tx, error := none, timestamp := now₁,
             status := .completed })) := by
      unfold processPayout
      rw [if_neg hle, if_neg (by simp [hd₁])]
    refine ⟨?_, ?_⟩
    · rw [hrun]
      simp only [completedCount] at hcc
      rw [List.length_eq_zero, List.filter_eq_nil_iff] at hcc
      simp only [decide_eq_true_eq] at hcc
      simp only [completedCount, List.filter_cons]
      simp
      intro a ha h1 h2 h3
      exact (hcc a ha) ⟨h1, h2, h3⟩
    · rw [hrun]
      unfold processPayout
      rw [if_neg hle, if_pos ?_]
      simp only [isDuplicatePayout, List.filter_cons]
      simp [hwin]

theorem C1_duplicate_suppression_witness :
    completedCount (({} : PayoutState)).payoutHistory "P1" .flooding = 0
    ∧ (0:ℤ) < calculatePayoutAmount ⟨"P1", "F1", 1000, {}, []⟩ ⟨.flooding, .severe, 0, 0⟩
    ∧ (completedCount (processPayout (fun s => s) {} 0 ⟨"P1", "F1", 1000, {}, []⟩
          ⟨.flooding, .severe, 0, 0⟩ [] (.ok "TX1")).1.payoutHistory "P1" .flooding = 1
       ∧ processPayout (fun s => s)
            (processPayout (fun s => s) {} 0 ⟨"P1", "F1", 1000, {}, []⟩
              ⟨.flooding, .severe, 0, 0⟩ [] (.ok "TX1")).1
            1000 ⟨"P1", "F1", 1000, {}, []⟩ ⟨.flooding, .severe, 0, 0⟩ [] (.ok "TX2")
          = ((processPayout (fun s => s) {} 0 ⟨"P1", "F1", 1000, {}, []⟩
              ⟨.flooding, .severe, 0, 0⟩ [] (.ok "TX1")).1, .ok none)) :=
  ⟨rfl,
   by simp only [calculatePayoutAmount, severityMultiplier, typeMultiplier]
      rw [min_def]
      norm_num
      decide,
   (C1_duplicate_suppression (fun s => s)).2 {} 0 1000 ⟨"P1", "F1", 1000, {}, []⟩
     ⟨.flooding, .severe, 0, 0⟩ [] "TX1" (.ok "TX2") rfl
     (by simp only [calculatePayoutAmount, severityMultiplier, typeMultiplier]
         rw [min_def]
         norm_num
         decide)
     (by norm_num)⟩

/-- C5: when `processPayout` reaches the settlement call (positive amount,
no recent duplicate), a successful settlement stores a `completed` record
carrying the returned transaction id, a failed settlement stores a `failed`
record with amount 0 and the error message and re-raises the error to the
caller; a failed attempt and a later successful attempt are two distinct
records, and previously stored records are preserved unchanged. -/
theorem C5_settlement_recording (sha : String → String) (st : PayoutState)
    (now₁ now₂ : ℤ) (pol : Policy) (tr : Trigger) (wd : List WeatherReading)
    (msg tx : String)
    (hamt : 0 < calculatePayoutAmount pol tr)
    (hdup₁ : isDuplicatePayout st.payoutHistory pol.id tr.type now₁ = false)
    (hdup₂ : isDuplicatePayout st.payoutHistory pol.id tr.type now₂ = false) :
    (∃ pr : PayoutRecord,
        (processPayout sha st now₁ pol tr wd (.ok tx)).2 = .ok (some pr)
        ∧ pr.status = .completed ∧ pr.transactionId = some tx
        ∧ pr.payoutAmount = calculatePayoutAmount pol tr
        ∧ (processPayout sha st now₁ pol tr wd (.ok tx)).1.payoutHistory =
            pr :: st.payoutHistory)
    ∧ (∃ fr : PayoutRecord,
        (processPayout sha st now₁ pol tr wd (.error msg)).2 = .error msg
        ∧ fr.status = .failed ∧ fr.payoutAmount = 0 ∧ fr.error = some msg
        ∧ (processPayout sha st now₁ pol tr wd (.error msg)).1.payoutHistory =
            fr :: st.payoutHistory)
    ∧ (∃ fr pr : PayoutRecord,
        (processPayout sha (processPayout sha st now₁ pol tr wd (.error msg)).1 now₂
            pol tr wd (.ok tx)).1.payoutHistory = pr :: fr :: st.payoutHistory
        ∧ fr.status = .failed ∧ pr.status = .completed ∧ pr ≠ fr) := by
  have hle : ¬(calculatePayoutAmount pol tr ≤ 0) := not_le.mpr hamt
  have hfail : processPayout sha st now₁ pol tr wd (.error msg) =
      ({ payoutHistory :=
           { id := st.nextId, policyId := pol.id, triggerType := tr.type,
             payoutAmount := 0, weatherDataHash := none, transactionId := none,
             error := some msg, timestamp := now₁, status := .failed } ::
             st.payoutHistory,
         nextId := st.nextId + 1,
         settlements :=
           { policyHolderAddress := pol.farmerId,
             microAlgos := calculatePayoutAmount pol tr * 1000000 } ::
             st.settlements },
       .error msg) := by
    unfold processPayout
    rw [if_neg hle, if_neg (by simp [hdup₁])]
  refine ⟨?_, ?_, ?_⟩
  · have hsucc : processPayout sha st now₁ pol tr wd (.ok tx) =
        ({ payoutHistory :=
             { id := st.nextId, policyId := pol.id, triggerType := tr.type,
               payoutAmount := calculatePayoutAmount pol tr,
               weatherDataHash := some (createWeatherDataHash sha wd),
               transactionId := some tx, error := none, timestamp := now₁,
               status := .completed } :: st.payoutHistory,
           nextId := st.nextId + 1,
           settlements :=
             { policyHolderAddress := pol.farmerId,
               microAlgos := calculatePayoutAmount pol tr * 1000000 } ::
               st.settlements },
         .ok (some
           { id := st.nextId, policyId := pol.id, triggerType := tr.type,
             payoutAmount := calculatePayoutAmount pol tr,
             weatherDataHash := some (createWeatherDataHash sha wd),
             transactionId := some tx, error := none, timestamp := now₁,
             status := .completed })) := by
      unfold processPayout
      rw [if_neg hle, if_neg (by simp [hdup₁])]
    rw [hsucc]
    exact ⟨_, rfl, rfl, rfl, rfl, rfl⟩
  · rw [hfail]
    exact ⟨_, rfl, rfl, rfl, rfl, rfl⟩
  · rw [hfail]
    have hdup₂' : isDuplicatePayout
        ({ id := st.nextId, policyId := pol.id, triggerType := tr.type,
           payoutAmount := 0, weatherDataHash := none, transactionId := none,
           error := some msg, timestamp := now₁,
           status := PayoutStatus.failed } :: st.payoutHistory) pol.id tr.type now₂ =
        false := by
      unfold isDuplicatePayout at hdup₂ ⊢
      rw [List.filter_cons_of_neg (by simp)]
      exact hdup₂
    unfold processPayout
    rw [if_neg hle, if_neg (by simp [hdup₂'])]
    exact ⟨_, _, rfl, rfl, rfl,
      fun h => absurd (congrArg PayoutRecord.status h) (by simp)⟩

theorem C5_settlement_recording_witness :
    ((0:ℤ) < calculatePayoutAmount ⟨"P1", "F1", 1000, {}, []⟩ ⟨.flooding, .severe, 0, 0⟩)
    ∧ isDuplicatePayout (({} : PayoutState)).payoutHistory "P1" .flooding 0 = false
    ∧ (∃ fr : PayoutRecord,
        (processPayout (fun s => s) {} 0 ⟨"P1", "F1", 1000, {}, []⟩
            ⟨.flooding, .severe, 0, 0⟩ [] (.error "boom")).2 = .error "boom"
        ∧ fr.status = .failed ∧ fr.payoutAmount = 0 ∧ fr.error = some "boom"
        ∧ (processPayout (fun s => s) {} 0 ⟨"P1", "F1", 1000, {}, []⟩
            ⟨.flooding, .severe, 0, 0⟩ [] (.error "boom")).1.payoutHistory =
            fr :: (({} : PayoutState)).payoutHistory) :=
  ⟨by simp only [calculatePayoutAmount, severityMultiplier, typeMultiplier]
      rw [min_def]
      norm_num
      decide,
   rfl,
   (C5_settlement_recording (fun s => s) {} 0 0 ⟨"P1", "F1", 1000, {}, []⟩
      ⟨.flooding, .severe, 0, 0⟩ [] "boom" "TX1"
      (by simp only [calculatePayoutAmount, severityMultiplier, typeMultiplier]
          rw [min_def]
          norm_num
          decide)
      rfl rfl).2.1⟩

/-- C9 counterexample: a payout completes (the flow returns a `completed`
PayoutRecord) yet the owning farmer's aggregate is untouched — the payout
flow never calls the registry, so `totalClaims` stays 0 and the whole
registry is unchanged. -/
theorem C9_total_claims_not_updated :
    (systemProcessPayout (fun s => s)
        { payout := {},
          registry := { policies := [⟨"P1", "F1", 1000, {}, []⟩],
                        farmers := [{ id := "F1" }], nextClaimId := 0 } }
        0 ⟨"P1", "F1", 1000, {}, []⟩ ⟨.flooding, .severe, 0, 0⟩ [] (.ok "TX")).2
      = .ok (some
        { id := 0, policyId := "P1", triggerType := .flooding,
          payoutAmount :=
            calculatePayoutAmount ⟨"P1", "F1", 1000, {}, []⟩ ⟨.flooding, .severe, 0, 0⟩,
          weatherDataHash := some (createWeatherDataHash (fun s => s) []),
          transactionId := some "TX", error := none, timestamp := 0,
          status := .completed })
    ∧ (systemProcessPayout (fun s => s)
          { payout := {},
            registry := { policies := [⟨"P1", "F1", 1000, {}, []⟩],
                          farmers := [{ id := "F1" }], nextClaimId := 0 } }
          0 ⟨"P1", "F1", 1000, {}, []⟩ ⟨.flooding, .severe, 0, 0⟩ [] (.ok "TX")).1.registry
        = { policies := [⟨"P1", "F1", 1000, {}, []⟩],
            farmers := [{ id := "F1" }], nextClaimId := 0 }
    ∧ ({ id := "F1" } : Farmer).totalClaims = 0 := by
  have hle : ¬(calculatePayoutAmount ⟨"P1", "F1", 1000, {}, []⟩
      ⟨.flooding, .severe, 0, 0⟩ ≤ 0) := by
    simp only [calculatePayoutAmount, severityMultiplier, typeMultiplier]
    rw [min_def]
    norm_num
    decide
  refine ⟨?_, ?_, rfl⟩ <;>
  · unfold systemProcessPayout processPayout
    rw [if_neg hle, if_neg (by decide)]

/-- C9 (amended): the payout flow stores the completed PayoutRecord but
performs no farmer-aggregate update at all (the registry component is
untouched); independently, the registry's `addClaimRecord` appends the claim
and bumps a farmer's `totalClaims` by the claim's `payoutAmount` exactly
when that farmer owns the policy and the appended claim's status is
`'paid'`. -/
theorem C9_claims_accounting (sha : String → String) :
    (∀ (st : SystemState) (now : ℤ) (pol : Policy) (tr : Trigger)
        (wd : List WeatherReading) (out : Except String String),
        (systemProcessPayout sha st now pol tr wd out).1.registry = st.registry)
    ∧ (∀ (st : RegistryState) (now : ℤ) (pid claimStatus : String) (camount : ℚ)
        (pol : Policy), st.policies.find? (fun p => p.id = pid) = some pol →
        ∃ st' claim, addClaimRecord st now pid claimStatus camount = .ok (st', claim)
          ∧ claim.status = claimStatus ∧ claim.payoutAmount = camount
          ∧ st'.farmers = st.farmers.map (fun f =>
              if f.id = pol.farmerId ∧ claimStatus = "paid" then
                { f with totalClaims := f.totalClaims + camount }
              else f)) := by
  constructor
  · intro st now pol tr wd out
    rfl
  · intro st now pid claimStatus camount pol hfind
    unfold addClaimRecord
    rw [hfind]
    exact ⟨_, _, rfl, rfl, rfl, rfl⟩

theorem C9_claims_accounting_witness :
    ((⟨[⟨"P1", "F1", 1000, {}, []⟩], [{ id := "F1" }], 0⟩ :
        RegistryState).policies.find? (fun p => p.id = "P1")
      = some ⟨"P1", "F1", 1000, {}, []⟩)
    ∧ (∃ st' claim,
        addClaimRecord ⟨[⟨"P1", "F1", 1000, {}, []⟩], [{ id := "F1" }], 0⟩ 5 "P1"
            "paid" 260 = .ok (st', claim)
        ∧ claim.status = "paid" ∧ claim.payoutAmount = 260
        ∧ st'.farmers = ([{ id := "F1" }] : List Farmer).map (fun f =>
            if f.id = "F1" ∧ "paid" = "paid" then
              { f with totalClaims := f.totalClaims + 260 }
            else f)) :=
  ⟨by simp,
   (C9_claims_accounting (fun s => s)).2 ⟨[⟨"P1", "F1", 1000, {}, []⟩],
     [{ id := "F1" }], 0⟩ 5 "P1" "paid" 260 ⟨"P1", "F1", 1000, {}, []⟩ (by simp)⟩
